import Mathlib

/-!
Verification of the fastapidemo repository: a Flask + SQLite API service
(src/Flask/app.py), a Flask client that forwards form actions to it over HTTP
(src/Flask/client.py), and a standalone FastAPI demo service
(src/FastAPI/main.py).

The embedding is shallow: each Python handler becomes a Lean function on an
explicit state (the SQLite database contents, or the demo service's in-memory
list), and the HTTP/routing layer of each framework is modelled as a total
dispatch function over method and path segments, following the route
decorators that appear in the source.
-/

namespace FastApiDemo

/-- JSON values, as produced by Flask's jsonify and FastAPI's response
serialization.  Numbers are split into integers (SQLite INTEGER ids) and
rationals (SQLite REAL prices; no arithmetic is performed on them anywhere in
the repository, so a rational carrier is faithful). -/
inductive Json where
  | obj : List (String × Json) → Json
  | arr : List Json → Json
  | str : String → Json
  | int : Int → Json
  | num : Rat → Json

/-- A row of the users table: integer id, text name, text email
(spec section 6: persisted state). -/
structure UserRow where
  id : Int
  name : String
  email : String
deriving DecidableEq, Repr

/-- A row of the products table: integer id, text name, real price. -/
structure ProductRow where
  id : Int
  name : String
  price : Rat
deriving DecidableEq, Repr

/-- The SQLite database file database.db: its two tables, each an ordered
list of rows. -/
structure Db where
  users : List UserRow
  products : List ProductRow
deriving DecidableEq, Repr

/-- A fetched sqlite3.Row with row_factory = sqlite3.Row: a mapping-like
record over the columns of the table it came from. -/
inductive SqlRow where
  | user : UserRow → SqlRow
  | product : ProductRow → SqlRow
deriving DecidableEq, Repr

/-- dict(row): the column-name-to-value mapping of a fetched row, in the
table's column order. -/
def SqlRow.toJson : SqlRow → Json
  | .user u => .obj [("id", .int u.id), ("name", .str u.name), ("email", .str u.email)]
  | .product p => .obj [("id", .int p.id), ("name", .str p.name), ("price", .num p.price)]

/-- A positional SQL bind parameter (the args tuple of query_db). -/
inductive SqlArg where
  | int : Int → SqlArg
  | text : String → SqlArg
deriving DecidableEq, Repr

/-- SQLite semantics of the four SELECT statements app.py issues, with the
bind parameters consumed positionally.  Any other statement or arity is not
issued by the program; it is mapped to the empty row set. -/
def run_sql (db : Db) (query : String) (args : List SqlArg) : List SqlRow :=
  if query = "SELECT * FROM users" then
    db.users.map .user
  else if query = "SELECT * FROM users WHERE id = ?" then
    match args with
    | [.int i] => (db.users.filter (fun u => u.id = i)).map .user
    | _ => []
  else if query = "SELECT * FROM products" then
    db.products.map .product
  else if query = "SELECT * FROM products WHERE id = ?" then
    match args with
    | [.int i] => (db.products.filter (fun p => p.id = i)).map .product
    | _ => []
  else []

/-- The value query_db returns: the full row list when one=False, and when
one=True either the first row or None (the null constructor). -/
inductive QueryRet (α : Type) where
  | rows : List α → QueryRet α
  | row : α → QueryRet α
  | null : QueryRet α
deriving DecidableEq, Repr

/-- query_db (app.py lines 7-14): connect, execute the statement with the
args bound, fetch all rows, close, and return
(rows[0] if rows else None) if one else rows. -/
def query_db (db : Db) (query : String) (args : List SqlArg) (one : Bool) : QueryRet SqlRow :=
  let rows := run_sql db query args
  if one then
    match rows with
    | [] => .null
    | r :: _ => .row r
  else .rows rows

/-- Outcome of the cur.execute / cur.fetchall steps of query_db: either the
fetched rows, or a sqlite3 error raised while executing or fetching. -/
inductive ExecOutcome (α : Type) where
  | ok : List α → ExecOutcome α
  | raised : String → ExecOutcome α
deriving DecidableEq, Repr

/-- One call to query_db with the exception flow made explicit: the returned
value (or the propagated error), together with whether conn.close() on
line 13 was reached. -/
structure QueryTrace (α : Type) where
  result : Except String (QueryRet α)
  connClosed : Bool

/-- query_db with its straight-line control flow traced: conn.close() sits
after cur.execute and cur.fetchall, so it runs only when neither raised; a
raised error propagates out of the function before the close. -/
def query_db_traced (exec : ExecOutcome α) (one : Bool) : QueryTrace α :=
  match exec with
  | .raised e => ⟨.error e, false⟩
  | .ok rows =>
      ⟨.ok (if one then
              match rows with
              | [] => .null
              | r :: _ => .row r
            else .rows rows), true⟩

/-- An HTTP response of the API service: a JSON body and a status code. -/
structure Response where
  body : Json
  status : Nat

/-- GET / (app.py): the root status message. -/
def home : Response :=
  ⟨.obj [("message", .str "Welcome to the Flask SQLite API")], 200⟩

/-- GET /users (app.py lines 20-23): jsonify([dict(row) for row in rows]).
The one=False call always yields the rows constructor; the other branches
are unreachable. -/
def get_users (db : Db) : Response :=
  match query_db db "SELECT * FROM users" [] false with
  | .rows rs => ⟨.arr (rs.map SqlRow.toJson), 200⟩
  | .row r => ⟨.arr [r.toJson], 200⟩
  | .null => ⟨.arr [], 200⟩

/-- GET /users/(int:user_id) (app.py lines 25-28): one matching row is
jsonified with status 200; a None result (falsy) yields the error payload
with status 404. -/
def get_user (db : Db) (user_id : Int) : Response :=
  match query_db db "SELECT * FROM users WHERE id = ?" [.int user_id] true with
  | .row r => ⟨r.toJson, 200⟩
  | _ => ⟨.obj [("error", .str "User not found")], 404⟩

/-- GET /products (app.py lines 30-33). -/
def get_products (db : Db) : Response :=
  match query_db db "SELECT * FROM products" [] false with
  | .rows rs => ⟨.arr (rs.map SqlRow.toJson), 200⟩
  | .row r => ⟨.arr [r.toJson], 200⟩
  | .null => ⟨.arr [], 200⟩

/-- GET /products/(int:product_id) (app.py lines 35-38). -/
def get_product (db : Db) (product_id : Int) : Response :=
  match query_db db "SELECT * FROM products WHERE id = ?" [.int product_id] true with
  | .row r => ⟨r.toJson, 200⟩
  | _ => ⟨.obj [("error", .str "Product not found")], 404⟩

/-- Flask's int path converter (the regex, one or more digits): the parsed
number when the path segment is a nonempty digit string, None otherwise. -/
def parse_int_param (s : String) : Option Nat :=
  let cs := s.data
  if cs ≠ [] ∧ cs.all (fun c => '0' ≤ c ∧ c ≤ '9') then
    some (cs.foldl (fun n c => n * 10 + (c.toNat - '0'.toNat)) 0)
  else none

/-- HTTP methods used by the two Flask apps. -/
inductive Method where
  | GET
  | POST
  | DELETE
deriving DecidableEq, Repr

/-- Result of dispatching one request against the API service: whether a
handler body ran, the response, and the database afterwards. -/
structure ApiStep where
  entered : Bool
  resp : Response
  db : Db

/-- Flask routing of app.py: does the path match some registered rule,
regardless of method?  The int converter of /users/(int:user_id) and
/products/(int:product_id) matches only digit strings. -/
def api_rule_matches (path : List String) : Bool :=
  match path with
  | [] => true
  | ["users"] => true
  | ["users", s] => (parse_int_param s).isSome
  | ["products"] => true
  | ["products", s] => (parse_int_param s).isSome
  | _ => false

/-- The API service (app.py) as one request-dispatch function.  The route
table registers only GET handlers; a matching path with another method is
refused by Flask with 405 Method Not Allowed, an unmatched path with 404,
in both cases before any handler runs.  The request body is received but no
registered route reads it. -/
def api_dispatch (db : Db) (m : Method) (path : List String)
    (body : Option Json) : ApiStep :=
  match m, path with
  | .GET, [] => ⟨true, home, db⟩
  | .GET, ["users"] => ⟨true, get_users db, db⟩
  | .GET, ["users", s] =>
      match parse_int_param s with
      | some n => ⟨true, get_user db (Int.ofNat n), db⟩
      | none => ⟨false, ⟨.str "Not Found", 404⟩, db⟩
  | .GET, ["products"] => ⟨true, get_products db, db⟩
  | .GET, ["products", s] =>
      match parse_int_param s with
      | some n => ⟨true, get_product db (Int.ofNat n), db⟩
      | none => ⟨false, ⟨.str "Not Found", 404⟩, db⟩
  | _, _ =>
      if api_rule_matches path then ⟨false, ⟨.str "Method Not Allowed", 405⟩, db⟩
      else ⟨false, ⟨.str "Not Found", 404⟩, db⟩

/-- request.form lookup in the client handlers: the value of a form field,
or None when the field is absent (in which case request.form[k] raises
BadRequestKeyError, which Flask turns into a 400 response). -/
def lookupForm (form : List (String × String)) (k : String) : Option String :=
  (form.find? (fun p => p.1 = k)).map Prod.snd

/-- What a client handler produces for the browser, or how it failed. -/
inductive ClientResult where
  | page : String → Option Json → ClientResult
  | redirectTo : String → ClientResult
  | badRequest : ClientResult
  | serverError : ClientResult
  | routingError : Nat → ClientResult

/-- Result of dispatching one request against the client service: whether a
handler body ran, the forwarding calls it made to the API service in order
(method, path, JSON body), the browser-facing result, and the API-side
database afterwards. -/
structure ClientStep where
  entered : Bool
  forwarded : List (Method × List String × Option Json)
  result : ClientResult
  db : Db

/-- Flask routing of client.py: does the path match some registered rule,
regardless of method? -/
def client_rule_matches (path : List String) : Bool :=
  match path with
  | [] => true
  | ["users"] => true
  | ["users", "add"] => true
  | ["users", "delete", s] => (parse_int_param s).isSome
  | ["products"] => true
  | ["products", "add"] => true
  | ["products", "delete", s] => (parse_int_param s).isSome
  | _ => false

/-- The client service (client.py) as one request-dispatch function,
parameterized by the Python float() parser used by add_product (pf s = none
models float(s) raising ValueError).  The requests.* forwarding calls are
modelled as direct invocations of api_dispatch; their responses are bound
(show pages use r.json()) but never checked for status, exactly as in the
source.  A missing form field raises BadRequestKeyError inside the handler
body at the request.form lookup, so entered is true on that path and no
forwarding call has been made yet. -/
def client_dispatch (pf : String → Option Rat) (db : Db) (m : Method)
    (path : List String) (form : List (String × String)) : ClientStep :=
  match m, path with
  | .GET, [] => ⟨true, [], .page "base.html" none, db⟩
  | .GET, ["users"] =>
      let a := api_dispatch db .GET ["users"] none
      ⟨true, [(.GET, ["users"], none)], .page "users.html" (some a.resp.body), a.db⟩
  | .POST, ["users", "add"] =>
      match lookupForm form "name" with
      | none => ⟨true, [], .badRequest, db⟩
      | some name =>
          match lookupForm form "email" with
          | none => ⟨true, [], .badRequest, db⟩
          | some email =>
              let payload := Json.obj [("name", .str name), ("email", .str email)]
              let a := api_dispatch db .POST ["users"] (some payload)
              ⟨true, [(.POST, ["users"], some payload)], .redirectTo "/users", a.db⟩
  | .GET, ["users", "delete", s] =>
      match parse_int_param s with
      | none => ⟨false, [], .routingError 404, db⟩
      | some n =>
          let a := api_dispatch db .DELETE ["users", toString n] none
          ⟨true, [(.DELETE, ["users", toString n], none)], .redirectTo "/users", a.db⟩
  | .GET, ["products"] =>
      let a := api_dispatch db .GET ["products"] none
      ⟨true, [(.GET, ["products"], none)], .page "products.html" (some a.resp.body), a.db⟩
  | .POST, ["products", "add"] =>
      match lookupForm form "name" with
      | none => ⟨true, [], .badRequest, db⟩
      | some name =>
          match lookupForm form "price" with
          | none => ⟨true, [], .badRequest, db⟩
          | some priceStr =>
          match pf priceStr with
          | none => ⟨true, [], .serverError, db⟩
          | some price =>
              let payload := Json.obj [("name", .str name), ("price", .num price)]
              let a := api_dispatch db .POST ["products"] (some payload)
              ⟨true, [(.POST, ["products"], some payload)], .redirectTo "/products", a.db⟩
  | .GET, ["products", "delete", s] =>
      match parse_int_param s with
      | none => ⟨false, [], .routingError 404, db⟩
      | some n =>
          let a := api_dispatch db .DELETE ["products", toString n] none
          ⟨true, [(.DELETE, ["products", toString n], none)], .redirectTo "/products", a.db⟩
  | _, _ =>
      if client_rule_matches path then ⟨false, [], .routingError 405, db⟩
      else ⟨false, [], .routingError 404, db⟩

/-- A concrete float() parser covering the inputs used in witnesses: digit
strings parse to the corresponding number. -/
def parsePrice (s : String) : Option Rat :=
  (parse_int_param s).map (fun n => (n : Rat))

/-- A Python value returned by a handler of the FastAPI demo service
(main.py), before response serialization.  All values the service builds are
flat: a dict of strings, a set of strings, or a bare string. -/
inductive PyValue where
  | dict : List (String × String) → PyValue
  | set : List String → PyValue
  | str : String → PyValue
deriving DecidableEq, Repr

/-- FastAPI's JSON serialization of those values: a dict becomes a JSON
object, a set becomes a JSON array of its elements, a string a JSON
string. -/
def PyValue.serialize : PyValue → Json
  | .dict fs => .obj (fs.map (fun p => (p.1, .str p.2)))
  | .set es => .arr (es.map .str)
  | .str s => .str s

/-- Shape test on serialized bodies: is the body a JSON array? -/
def Json.isArr : Json → Bool
  | .arr _ => true
  | _ => false

/-- Shape test on serialized bodies: is the body a JSON object? -/
def Json.isObj : Json → Bool
  | .obj _ => true
  | _ => false

/-- GET / of the demo service (main.py lines 15-17). -/
def demo_root : PyValue := .dict [("hello", "world")]

/-- GET /about of the demo service (main.py lines 19-21): a one-element
Python set literal, not a dict. -/
def about : PyValue := .set ["About Page"]

/-- POST /items (main.py lines 23-26): items.append(item); return item.
State-passing form of the handler over the process-wide items list. -/
def create_item (items : List String) (item : String) : PyValue × List String :=
  (.str item, items ++ [item])

/-- The three requests the demo service can receive (the item query
parameter of POST /items already parsed by FastAPI). -/
inductive DemoRequest where
  | root
  | about
  | createItem : String → DemoRequest
deriving DecidableEq, Repr

/-- One request handled by the demo service: the returned value and the
items list afterwards.  Only create_item touches the list. -/
def demo_step (items : List String) : DemoRequest → PyValue × List String
  | .root => (demo_root, items)
  | .about => (about, items)
  | .createItem s => create_item items s

/-- A sequence of requests handled by the demo service, threading the
process-wide items list. -/
def demo_run (items : List String) : List DemoRequest → List String
  | [] => items
  | r :: rs => demo_run (demo_step items r).2 rs

/-- The strings of the create-item calls of a request sequence, in order. -/
def createdItems (reqs : List DemoRequest) : List String :=
  reqs.filterMap (fun r => match r with
    | .createItem s => some s
    | _ => none)

/-! ## Helper material shared by the theorems -/

/-- A sample database used to instantiate universally quantified theorems. -/
def dbEx : Db :=
  ⟨[⟨1, "Ann", "ann@x.com"⟩, ⟨2, "Bob", "bob@x.com"⟩],
   [⟨1, "Pen", (5 : Rat)⟩, ⟨2, "Mug", (7 : Rat)⟩]⟩

theorem run_sql_users (db : Db) :
    run_sql db "SELECT * FROM users" [] = db.users.map .user := rfl

theorem run_sql_user_by_id (db : Db) (i : Int) :
    run_sql db "SELECT * FROM users WHERE id = ?" [.int i] =
      (db.users.filter (fun u => u.id = i)).map .user := rfl

theorem run_sql_products (db : Db) :
    run_sql db "SELECT * FROM products" [] = db.products.map .product := rfl

theorem run_sql_product_by_id (db : Db) (i : Int) :
    run_sql db "SELECT * FROM products WHERE id = ?" [.int i] =
      (db.products.filter (fun p => p.id = i)).map .product := rfl

/-- In a list whose keys are pairwise distinct, filtering on the key of a
member returns exactly that member. -/
theorem filter_key_eq_singleton {α β : Type} [DecidableEq β] (key : α → β)
    {l : List α} {x : α} (hmem : x ∈ l) (hnd : (l.map key).Nodup) :
    l.filter (fun y => key y = key x) = [x] := by
  induction l with
  | nil => cases hmem
  | cons a tl ih =>
    rw [List.map_cons, List.nodup_cons] at hnd
    obtain ⟨hka, hnd⟩ := hnd
    rcases List.mem_cons.mp hmem with rfl | hmem2
    · have htl : tl.filter (fun y => key y = key x) = [] := by
        refine List.filter_eq_nil_iff.mpr (fun y hy => ?_)
        simp only [decide_eq_true_eq]
        exact fun h => hka (h ▸ List.mem_map_of_mem key hy)
      simp [List.filter_cons, htl]
    · have hne : key a ≠ key x := by
        intro h
        exact hka (h ▸ List.mem_map_of_mem key hmem2)
      simp [List.filter_cons, hne, ih hmem2 hnd]

/-- Filtering on a key held by no member returns the empty list. -/
theorem filter_key_eq_nil {α β : Type} [DecidableEq β] (key : α → β)
    {l : List α} {b : β} (habs : ∀ y ∈ l, key y ≠ b) :
    l.filter (fun y => key y = b) = [] := by
  refine List.filter_eq_nil_iff.mpr (fun y hy => ?_)
  simp only [decide_eq_true_eq]
  exact habs y hy

theorem demo_run_eq_append (reqs : List DemoRequest) (items : List String) :
    demo_run items reqs = items ++ createdItems reqs := by
  induction reqs generalizing items with
  | nil => simp [demo_run, createdItems]
  | cons r rs ih =>
    cases r with
    | root => simp [demo_run, demo_step, createdItems, List.filterMap_cons, ih]
    | about => simp [demo_run, demo_step, createdItems, List.filterMap_cons, ih]
    | createItem s =>
        simp [demo_run, demo_step, create_item, createdItems, List.filterMap_cons, ih]

theorem createdItems_replicate (n : Nat) (s : String) :
    createdItems (List.replicate n (.createItem s)) = List.replicate n s := by
  induction n with
  | zero => rfl
  | succ k ih => simp [List.replicate_succ, createdItems, List.filterMap_cons, ih]

/-! ## The claims -/

/-- Claim C3, counterexample: when cur.execute or cur.fetchall raises,
query_db propagates the error and conn.close() is never reached, so the
connection opened by the call is not closed on that exit path — the claim
that the connection is closed on every exit path fails. -/
theorem query_db_traced_raise_leaves_conn_open :
    (query_db_traced (α := SqlRow) (.raised "database is locked") true).connClosed = false ∧
    (query_db_traced (α := SqlRow) (.raised "database is locked") true).result =
      .error "database is locked" := ⟨rfl, rfl⟩

/-- Claim C3 (amended): query_db closes the connection on the normal exit
path, where executing and fetching succeeded; on the exit path where
executing or fetching raises, the error propagates out of the function and
the connection is not closed. -/
theorem query_db_conn_release (α : Type) (rows : List α) (e : String) (one : Bool) :
    (query_db_traced (.ok rows) one).connClosed = true ∧
    (query_db_traced (α := α) (.raised e) one).connClosed = false ∧
    (query_db_traced (α := α) (.raised e) one).result = .error e := by
  exact ⟨rfl, rfl, rfl⟩

/-- Claim C4: query_db executes the statement with the parameters bound
positionally (run_sql consumes the args tuple positionally) and returns the
full ordered row sequence when one is false; when one is true it returns
the first matching row, or None (null) when no row matched. -/
theorem query_db_return_shape (db : Db) (q : String) (args : List SqlArg) :
    query_db db q args false = .rows (run_sql db q args) ∧
    (run_sql db q args = [] → query_db db q args true = .null) ∧
    (∀ r rs, run_sql db q args = r :: rs → query_db db q args true = .row r) := by
  refine ⟨rfl, fun h => ?_, fun r rs h => ?_⟩
  · simp [query_db, h]
  · simp [query_db, h]

/-- Witness for C4 on a concrete database and the three query shapes. -/
theorem query_db_return_shape_witness :
    query_db dbEx "SELECT * FROM users" [] false =
      .rows [.user ⟨1, "Ann", "ann@x.com"⟩, .user ⟨2, "Bob", "bob@x.com"⟩] ∧
    query_db dbEx "SELECT * FROM users WHERE id = ?" [.int 7] true = .null ∧
    query_db dbEx "SELECT * FROM users WHERE id = ?" [.int 2] true =
      .row (.user ⟨2, "Bob", "bob@x.com"⟩) := by
  refine ⟨(query_db_return_shape dbEx "SELECT * FROM users" []).1, ?_, ?_⟩
  · exact (query_db_return_shape dbEx "SELECT * FROM users WHERE id = ?" [.int 7]).2.1 (by decide)
  · exact (query_db_return_shape dbEx "SELECT * FROM users WHERE id = ?" [.int 2]).2.2
      (.user ⟨2, "Bob", "bob@x.com"⟩) [] (by decide)

/-- Claim C7: create_item echoes the submitted string back, and N
repetitions of POST /items starting from the empty items list leave the
list with length exactly N. -/
theorem create_item_echo_and_count (items : List String) (s : String) (n : Nat) :
    (create_item items s).1 = .str s ∧
    (demo_run [] (List.replicate n (.createItem s))).length = n := by
  refine ⟨rfl, ?_⟩
  rw [demo_run_eq_append, createdItems_replicate]
  simp

/-- Claim C9: the demo service's GET /about handler returns a one-element
Python set, not a dict, so its body serializes as a JSON array, unlike the
root endpoint whose dict serializes as a JSON object. -/
theorem about_serializes_as_array :
    about = PyValue.set ["About Page"] ∧
    about.serialize = Json.arr [Json.str "About Page"] ∧
    about.serialize.isArr = true ∧
    about.serialize.isObj = false ∧
    demo_root.serialize = Json.obj [("hello", Json.str "world")] ∧
    demo_root.serialize.isObj = true :=
  ⟨rfl, rfl, rfl, rfl, rfl, rfl⟩

/-- Claim C10: every demo-service operation leaves the items list unchanged
or extends it by exactly one element at the end, and after any request
sequence the run appends exactly the created items in handling order, so
the previous contents are a prefix of the current list. -/
theorem demo_items_append_only (items : List String) (r : DemoRequest)
    (reqs : List DemoRequest) :
    ((demo_step items r).2 = items ∨ ∃ s, (demo_step items r).2 = items ++ [s]) ∧
    demo_run items reqs = items ++ createdItems reqs ∧
    items <+: demo_run items reqs := by
  refine ⟨?_, demo_run_eq_append reqs items, ?_⟩
  · cases r with
    | root => exact Or.inl rfl
    | about => exact Or.inl rfl
    | createItem s => exact Or.inr ⟨s, rfl⟩
  · exact ⟨createdItems reqs, (demo_run_eq_append reqs items).symm⟩

/-- Claim C2: GET /users/(id) returns exactly the stored user's fields with
status 200 when a row with that id exists (ids being unique), and the error
payload with status 404 when no row has that id; likewise for
GET /products/(id). -/
theorem fetch_by_id_dichotomy (db : Db) (uid pid : Int) :
    (∀ u ∈ db.users, u.id = uid → (db.users.map UserRow.id).Nodup →
      get_user db uid = ⟨(SqlRow.user u).toJson, 200⟩) ∧
    ((∀ u ∈ db.users, u.id ≠ uid) →
      get_user db uid = ⟨.obj [("error", .str "User not found")], 404⟩) ∧
    (∀ p ∈ db.products, p.id = pid → (db.products.map ProductRow.id).Nodup →
      get_product db pid = ⟨(SqlRow.product p).toJson, 200⟩) ∧
    ((∀ p ∈ db.products, p.id ≠ pid) →
      get_product db pid = ⟨.obj [("error", .str "Product not found")], 404⟩) := by
  refine ⟨?_, ?_, ?_, ?_⟩
  · intro u hmem huid hnd
    subst huid
    have hf := filter_key_eq_singleton UserRow.id hmem hnd
    simp [get_user, query_db, run_sql_user_by_id, hf]
  · intro habs
    have hf := filter_key_eq_nil UserRow.id (b := uid) habs
    simp [get_user, query_db, run_sql_user_by_id, hf]
  · intro p hmem hpid hnd
    subst hpid
    have hf := filter_key_eq_singleton ProductRow.id hmem hnd
    simp [get_product, query_db, run_sql_product_by_id, hf]
  · intro habs
    have hf := filter_key_eq_nil ProductRow.id (b := pid) habs
    simp [get_product, query_db, run_sql_product_by_id, hf]

/-- Witness for C2: a present id and an absent id on each table of a
concrete database. -/
theorem fetch_by_id_dichotomy_witness :
    get_user dbEx 2 = ⟨(SqlRow.user ⟨2, "Bob", "bob@x.com"⟩).toJson, 200⟩ ∧
    get_user dbEx 7 = ⟨.obj [("error", .str "User not found")], 404⟩ ∧
    get_product dbEx 1 = ⟨(SqlRow.product ⟨1, "Pen", (5 : Rat)⟩).toJson, 200⟩ ∧
    get_product dbEx 9 = ⟨.obj [("error", .str "Product not found")], 404⟩ := by
  refine ⟨?_, ?_, ?_, ?_⟩
  · exact (fetch_by_id_dichotomy dbEx 2 1).1 ⟨2, "Bob", "bob@x.com"⟩
      (by decide) rfl (by decide)
  · exact (fetch_by_id_dichotomy dbEx 7 1).2.1 (by decide)
  · exact (fetch_by_id_dichotomy dbEx 2 1).2.2.1 ⟨1, "Pen", (5 : Rat)⟩
      (by decide) rfl (by decide)
  · exact (fetch_by_id_dichotomy dbEx 2 9).2.2.2 (by decide)

/-- Claim C5: GET /users returns, with status 200, the array of the
column mappings of the users table rows, one element per row in table
order, so its length equals the row count and every element is the mapping
of a stored row. -/
theorem get_users_listing (db : Db) :
    (get_users db).body = .arr ((db.users.map SqlRow.user).map SqlRow.toJson) ∧
    (get_users db).status = 200 ∧
    ((db.users.map SqlRow.user).map SqlRow.toJson).length = db.users.length ∧
    (∀ j ∈ (db.users.map SqlRow.user).map SqlRow.toJson,
      ∃ u ∈ db.users, j = (SqlRow.user u).toJson) := by
  refine ⟨?_, ?_, by simp, ?_⟩
  · simp [get_users, query_db, run_sql_users]
  · simp [get_users, query_db, run_sql_users]
  · intro j hj
    simp only [List.mem_map] at hj
    obtain ⟨r, hr, rfl⟩ := hj
    obtain ⟨u, hu, rfl⟩ := hr
    exact ⟨u, hu, rfl⟩

/-- Witness for C5 on a concrete database. -/
theorem get_users_listing_witness :
    (get_users dbEx).body = .arr ((dbEx.users.map SqlRow.user).map SqlRow.toJson) ∧
    (get_users dbEx).status = 200 :=
  ⟨(get_users_listing dbEx).1, (get_users_listing dbEx).2.1⟩

/-- Claim C6: no API-service request changes the database — the store after
any dispatch equals the store before — and therefore the uniqueness of the
row identifiers of both tables is preserved by every API-service
operation. -/
theorem api_read_only_frame (db : Db) (m : Method) (path : List String)
    (body : Option Json)
    (h : (db.users.map UserRow.id).Nodup ∧ (db.products.map ProductRow.id).Nodup) :
    (api_dispatch db m path body).db = db ∧
    ((api_dispatch db m path body).db.users.map UserRow.id).Nodup ∧
    ((api_dispatch db m path body).db.products.map ProductRow.id).Nodup := by
  have hdb : (api_dispatch db m path body).db = db := by
    unfold api_dispatch
    (repeat' split) <;> rfl
  rw [hdb]
  exact ⟨rfl, h.1, h.2⟩

/-- Witness for C6: a write-shaped request (POST /users) and a read request
both leave a concrete database intact. -/
theorem api_read_only_frame_witness :
    (api_dispatch dbEx .POST ["users"] none).db = dbEx ∧
    (api_dispatch dbEx .GET ["users"] none).db = dbEx :=
  ⟨(api_read_only_frame dbEx .POST ["users"] none ⟨by decide, by decide⟩).1,
   (api_read_only_frame dbEx .GET ["users"] none ⟨by decide, by decide⟩).1⟩

/-- Claim C1, evaluated at the failing input: submitting name Ann and email
ann@x.com through the client add-user form completes the forwarding call
(the handler forwards POST /users with that JSON and answers with the
redirect), but the API service has no POST /users route — the forwarded
request is refused with 405 before any handler and the database is
untouched — so the subsequent GET /users returns the empty array, which
contains no entry with that name and email. -/
theorem add_user_then_list_misses_user :
    (client_dispatch parsePrice ⟨[], []⟩ .POST ["users", "add"]
        [("name", "Ann"), ("email", "ann@x.com")]).result = .redirectTo "/users" ∧
    (client_dispatch parsePrice ⟨[], []⟩ .POST ["users", "add"]
        [("name", "Ann"), ("email", "ann@x.com")]).forwarded =
      [(.POST, ["users"],
        some (.obj [("name", .str "Ann"), ("email", .str "ann@x.com")]))] ∧
    (api_dispatch ⟨[], []⟩ .POST ["users"]
        (some (.obj [("name", .str "Ann"), ("email", .str "ann@x.com")]))).entered = false ∧
    (api_dispatch ⟨[], []⟩ .POST ["users"]
        (some (.obj [("name", .str "Ann"), ("email", .str "ann@x.com")]))).resp.status = 405 ∧
    (get_users (client_dispatch parsePrice ⟨[], []⟩ .POST ["users", "add"]
        [("name", "Ann"), ("email", "ann@x.com")]).db).body = .arr [] :=
  ⟨rfl, rfl, rfl, rfl, rfl⟩

/-- Claim C8, counterexample: a POST /users/add submission whose form lacks
the email field does not fail before the handler — add_user is entered (its
name lookup even succeeds) and the failure is the BadRequestKeyError raised
inside the handler body at the email lookup. -/
theorem missing_field_reaches_handler :
    (client_dispatch parsePrice dbEx .POST ["users", "add"]
        [("name", "Ann")]).entered = true ∧
    (client_dispatch parsePrice dbEx .POST ["users", "add"]
        [("name", "Ann")]).result = .badRequest :=
  ⟨rfl, rfl⟩

/-- Claim C8 (amended): a non-integer path parameter on the id and delete
routes fails at the routing layer, before any handler runs, with 404; a
missing name, email, or price form field on the add routes makes the
handler fail with a bad request at the request.form lookup inside the
handler body — the handler is entered, but no forwarding call has been
made and the store is untouched. -/
theorem malformed_input_rejected (pf : String → Option Rat) (db : Db)
    (s : String) (form : List (String × String)) :
    (parse_int_param s = none →
      (api_dispatch db .GET ["users", s] none).entered = false ∧
      (api_dispatch db .GET ["users", s] none).resp.status = 404 ∧
      (api_dispatch db .GET ["products", s] none).entered = false ∧
      (api_dispatch db .GET ["products", s] none).resp.status = 404 ∧
      (client_dispatch pf db .GET ["users", "delete", s] form).entered = false ∧
      (client_dispatch pf db .GET ["users", "delete", s] form).result = .routingError 404 ∧
      (client_dispatch pf db .GET ["products", "delete", s] form).entered = false ∧
      (client_dispatch pf db .GET ["products", "delete", s] form).result = .routingError 404) ∧
    ((lookupForm form "name" = none ∨ lookupForm form "email" = none) →
      (client_dispatch pf db .POST ["users", "add"] form).entered = true ∧
      (client_dispatch pf db .POST ["users", "add"] form).result = .badRequest ∧
      (client_dispatch pf db .POST ["users", "add"] form).forwarded = [] ∧
      (client_dispatch pf db .POST ["users", "add"] form).db = db) ∧
    ((lookupForm form "name" = none ∨ lookupForm form "price" = none) →
      (client_dispatch pf db .POST ["products", "add"] form).entered = true ∧
      (client_dispatch pf db .POST ["products", "add"] form).result = .badRequest ∧
      (client_dispatch pf db .POST ["products", "add"] form).forwarded = [] ∧
      (client_dispatch pf db .POST ["products", "add"] form).db = db) := by
  refine ⟨fun h => ?_, fun h => ?_, fun h => ?_⟩
  · simp [api_dispatch, client_dispatch, h]
  · rcases h with hn | he
    · simp [client_dispatch, hn]
    · cases hname : lookupForm form "name" with
      | none => simp [client_dispatch, hname]
      | some name => simp [client_dispatch, hname, he]
  · rcases h with hn | hp
    · simp [client_dispatch, hn]
    · cases hname : lookupForm form "name" with
      | none => simp [client_dispatch, hname]
      | some name => simp [client_dispatch, hname, hp]

/-- Witness for the amended C8: a non-numeric path parameter and a form
lacking its second field, on a concrete database. -/
theorem malformed_input_rejected_witness :
    (api_dispatch dbEx .GET ["users", "abc"] none).resp.status = 404 ∧
    (client_dispatch parsePrice dbEx .GET ["users", "delete", "abc"] []).entered = false ∧
    (client_dispatch parsePrice dbEx .POST ["products", "add"]
        [("name", "Pen")]).result = .badRequest := by
  refine ⟨?_, ?_, ?_⟩
  · exact ((malformed_input_rejected parsePrice dbEx "abc" []).1 (by decide)).2.1
  · exact ((malformed_input_rejected parsePrice dbEx "abc" []).1 (by decide)).2.2.2.2.1
  · exact ((malformed_input_rejected parsePrice dbEx "abc"
      [("name", "Pen")]).2.2 (Or.inr (by decide))).2.1

end FastApiDemo
